import Mathlib

/-
Shallow embedding of the Ritual_Buddy booking saga orchestrator.

Sources embedded here:
  - src/services/booking/router.py   (create / payment-confirmed / accept /
                                      decline / complete / cancel)
  - src/services/payment/router.py   (verify_payment, razorpay_webhook)
  - src/tasks/payment_tasks.py       (process_single_payout,
                                      process_pending_payouts,
                                      release_expired_slot_locks)
  - src/shared/models/models.py      (Booking, BookingAuditLog, Payment,
                                      PanditAvailability, PanditProfile, enums)
  - src/config/redis_client.py       (slot-lock keys)
  - src/config/settings.py           (constants)

Modelling conventions:
  - Timestamps are natural numbers counting hours; a calendar date is the
    timestamp divided by 24.  `timedelta(hours=h)` is subtraction of `h`.
  - Money amounts are natural numbers of rupees.
  - Each HTTP handler is a function `St -> ... -> Except ApiErr St`.
    `get_db` (config/database.py) commits on success and rolls back on any
    exception, so `Except.error` means the database state is unchanged.
  - HMAC-SHA256 is modelled by an abstract (injective on its inputs) string
    tag; the claims depend only on equality between the expected digest and
    the provided signature, exactly like `hmac.compare_digest` in the source.
  - `St.sigVerified` is a ghost counter incremented exactly at the two points
    where the source performs a successful `hmac.compare_digest`
    (payment/router.py lines 150 and 213); it records that a signature
    verification succeeded during the request and is not a database column.
  - Notifications are modelled by a counter (`St.notifs`); their content is
    irrelevant to every claim.
-/

namespace Ritual

/-- Booking saga states, models.py `BookingStatus`. -/
inductive BookingStatus where
  | DRAFT
  | SLOT_LOCKED
  | PAYMENT_PENDING
  | AWAITING_PANDIT
  | CONFIRMED
  | IN_PROGRESS
  | COMPLETED
  | CANCELLED
  | DECLINED
deriving DecidableEq, Repr

/-- models.py `PaymentStatus`. -/
inductive PaymentStatus where
  | PENDING
  | CAPTURED
  | REFUNDED
  | FAILED
  | PARTIALLY_REFUNDED
deriving DecidableEq, Repr

/-- models.py `UserRole`. -/
inductive UserRole where
  | USER
  | PANDIT
  | ADMIN
deriving DecidableEq, Repr

/-- models.py `VerificationStatus` (only VERIFIED matters to the router). -/
inductive VerificationStatus where
  | PENDING
  | VERIFIED
  | REJECTED
deriving DecidableEq, Repr

/-- The authenticated caller (`current_user`): id and role. -/
structure Actor where
  id : Nat
  role : UserRole
deriving DecidableEq, Repr

/-- models.py `PanditProfile` (the fields read by the booking router). -/
structure PanditProfile where
  id : Nat
  userId : Nat
  verificationStatus : VerificationStatus
  isAvailable : Bool
  baseFee : Nat
  poojaFees : Option (List (Nat × Nat))
deriving DecidableEq, Repr

/-- models.py `Pooja` (the fields read by the booking router). -/
structure Pooja where
  id : Nat
  avgDurationHrs : Nat
deriving DecidableEq, Repr

/-- models.py `PanditAvailability`. -/
structure AvailabilitySlot where
  id : Nat
  panditId : Nat
  date : Nat
  isBooked : Bool
  isBlocked : Bool
  bookingId : Option Nat
deriving DecidableEq, Repr

/-- models.py `Booking`. -/
structure Booking where
  id : Nat
  bookingNumber : String
  userId : Nat
  panditId : Nat
  poojaId : Nat
  scheduledAt : Nat
  status : BookingStatus
  acceptDeadline : Option Nat
  baseAmount : Nat
  platformFee : Nat
  totalAmount : Nat
  panditPayout : Nat
  cancellationReason : Option String
  declineReason : Option String
  cancelledBy : Option String
  confirmedAt : Option Nat
  completedAt : Option Nat
  cancelledAt : Option Nat
deriving DecidableEq, Repr

/-- models.py `BookingAuditLog` (id and created_at are storage-generated and
play no role in any claim; entry order in `St.audit` is creation order). -/
structure AuditEntry where
  bookingId : Nat
  fromStatus : Option BookingStatus
  toStatus : BookingStatus
  changedById : Option Nat
  reason : Option String
deriving DecidableEq, Repr

/-- models.py `Payment`.  Note: the model defines NO `pandit_payout` column;
that column exists only on `Booking` (models.py line 418). -/
structure Payment where
  id : Nat
  bookingId : Nat
  userId : Nat
  razorpayOrderId : Option String
  razorpayPaymentId : Option String
  razorpaySignature : Option String
  amount : Nat
  platformFee : Nat
  status : PaymentStatus
  refundId : Option String
  refundAmount : Nat
  capturedAt : Option Nat
  refundedAt : Option Nat
  payoutId : Option String
  payoutAmount : Nat
  payoutAt : Option Nat
deriving DecidableEq, Repr

/-- The combined persistent state: relational rows, the Redis slot-lock
keyspace (key, booking id), a notification counter, and the ghost
signature-verification counter. -/
structure St where
  bookings : List Booking
  audit : List AuditEntry
  payments : List Payment
  slots : List AvailabilitySlot
  pandits : List PanditProfile
  poojas : List Pooja
  locks : List (String × Nat)
  notifs : Nat
  sigVerified : Nat
deriving DecidableEq, Repr

/-- Error taxonomy of the handlers.  `stateConflict` covers the 400-class
guard failures (wrong status, deadline passed, pandit unverified or
unavailable, no free slot); `pricingTypeError` is the unhandled Python
TypeError raised at booking/router.py line 183. -/
inductive ApiErr where
  | notFound
  | forbidden
  | stateConflict
  | slotHeld
  | invalidSignature
  | pricingTypeError
deriving DecidableEq, Repr

/-- HTTP status code of each error. -/
def ApiErr.httpCode : ApiErr → Nat
  | .notFound => 404
  | .forbidden => 403
  | .stateConflict => 400
  | .slotHeld => 409
  | .invalidSignature => 400
  | .pricingTypeError => 500

/-- settings.py `PLATFORM_COMMISSION_PERCENT = 10.0`. -/
def platformCommissionPercent : Nat := 10

/-- settings.py `BOOKING_ACCEPT_DEADLINE_HOURS = 2`. -/
def bookingAcceptDeadlineHours : Nat := 2

/-- settings.py `RAZORPAY_KEY_SECRET` (value irrelevant, only identity). -/
def razorpayKeySecret : String := "razorpay-key-secret"

/-- settings.py `RAZORPAY_WEBHOOK_SECRET`. -/
def razorpayWebhookSecret : String := "razorpay-webhook-secret"

/-- Abstract model of `hmac.new(secret, msg, sha256).hexdigest()`.  The
claims depend only on comparing the expected digest with the provided
signature, so any function of (secret, msg) is adequate. -/
def hmacSHA256 (secret msg : String) : String :=
  "hmac[" ++ secret ++ "|" ++ msg ++ "]"

/-- Calendar date of an hour-timestamp, models `func.date(...)`. -/
def dateOf (ts : Nat) : Nat := ts / 24

/-- Redis key built by RedisCache.lock_slot / release_slot / get_slot_lock
(config/redis_client.py lines 77, 87, 91) and by the sweep task
(payment_tasks.py line 299). -/
def slotKey (panditId ts : Nat) : String :=
  "slot_lock:" ++ toString panditId ++ ":" ++ toString ts

-- ── Row lookups and updates ──────────────────────────────────────────

/-- `select(Booking).where(Booking.id == booking_id)` + scalar_one_or_none. -/
def findBooking (st : St) (bid : Nat) : Option Booking :=
  st.bookings.find? (fun b => b.id == bid)

/-- `select(PanditProfile).where(PanditProfile.id == pid)`. -/
def findPanditById (st : St) (pid : Nat) : Option PanditProfile :=
  st.pandits.find? (fun p => p.id == pid)

/-- `select(PanditProfile).where(PanditProfile.user_id == uid)`. -/
def findPanditByUser (st : St) (uid : Nat) : Option PanditProfile :=
  st.pandits.find? (fun p => p.userId == uid)

/-- `select(Pooja).where(Pooja.id == pid)`. -/
def findPooja (st : St) (pid : Nat) : Option Pooja :=
  st.poojas.find? (fun pj => pj.id == pid)

/-- `select(Payment).where(Payment.razorpay_order_id == oid)`. -/
def findPaymentByOrder (st : St) (oid : String) : Option Payment :=
  st.payments.find? (fun q => q.razorpayOrderId == some oid)

/-- `select(Payment).where(Payment.id == pid)`. -/
def findPaymentById (st : St) (pid : Nat) : Option Payment :=
  st.payments.find? (fun q => q.id == pid)

/-- Availability query of create_booking (router lines 156-164): same pandit,
same date, not booked, not blocked; `.first()`. -/
def findFreeSlot (st : St) (pid d : Nat) : Option AvailabilitySlot :=
  st.slots.find? (fun s =>
    s.panditId == pid && s.date == d && !s.isBooked && !s.isBlocked)

/-- `cache.get_slot_lock` (redis GET of the slot key). -/
def lockLookup (st : St) (k : String) : Option Nat :=
  (st.locks.find? (fun kv => kv.fst == k)).map (fun kv => kv.snd)

/-- Apply an update to the booking row with the given id. -/
def updateBooking (st : St) (bid : Nat) (f : Booking → Booking) : St :=
  { st with bookings := st.bookings.map (fun b => if b.id == bid then f b else b) }

/-- Apply an update to the payment row with the given id. -/
def updatePayment (st : St) (pid : Nat) (f : Payment → Payment) : St :=
  { st with payments := st.payments.map (fun q => if q.id == pid then f q else q) }

/-- `_log_status_change` (router lines 60-78): append one audit row. -/
def appendAudit (st : St) (e : AuditEntry) : St :=
  { st with audit := st.audit ++ [e] }

/-- `cache.release_slot`: redis DELETE of the key (idempotent). -/
def removeLock (st : St) (k : String) : St :=
  { st with locks := st.locks.filter (fun kv => kv.fst != k) }

/-- Mark the first unbooked slot of the pandit on the date as booked
(accept_booking lines 294-305; note the query has no is_blocked filter). -/
def markFirstFree : List AvailabilitySlot → Nat → Nat → Nat → List AvailabilitySlot
  | [], _, _, _ => []
  | s :: rest, pid, d, bid =>
    if s.panditId = pid ∧ s.date = d ∧ s.isBooked = false then
      { s with isBooked := true, bookingId := some bid } :: rest
    else
      s :: markFirstFree rest pid d bid

/-- Clear the slot carrying this booking id (cancel_booking lines 459-466). -/
def clearSlotOf : List AvailabilitySlot → Nat → List AvailabilitySlot
  | [], _ => []
  | s :: rest, bid =>
    if s.bookingId = some bid then
      { s with isBooked := false, bookingId := none } :: rest
    else
      s :: clearSlotOf rest bid

/-- String stored in `booking.cancelled_by` (`current_user.role.value`). -/
def roleValue : UserRole → String
  | .USER => "USER"
  | .PANDIT => "PANDIT"
  | .ADMIN => "ADMIN"

/-- Database state resulting from a handler call: commit on success,
rollback (state unchanged) on any raised exception, per get_db. -/
def run (st : St) (r : Except ApiErr St) : St :=
  match r with
  | .ok s => s
  | .error _ => st

/-- True iff the handler returned a 2xx response. -/
def resultOk (r : Except ApiErr St) : Bool :=
  match r with
  | .ok _ => true
  | .error _ => false

deriving instance DecidableEq for Except

-- ── POST /bookings (create_booking, router lines 119-215) ────────────

/-- Request body of POST /bookings. -/
structure CreateReq where
  panditId : Nat
  poojaId : Nat
  scheduledAt : Nat
deriving DecidableEq, Repr

/-- create_booking.  Pre-checks in source order: role, pandit exists /
verified / available, pooja exists, free availability slot, no live Redis
lock.  The pricing step (line 183) evaluates
`float(pandit.pooja_fees or {})`: `float` applied to a dict raises TypeError
for every dict, so lines 184-215 (amount computation, row insert, Redis
lock, audit entry, commit) are unreachable and the handler raises. -/
def createBooking (st : St) (actor : Actor) (req : CreateReq) : Except ApiErr St :=
  if actor.role = .PANDIT then .error .forbidden else
  match findPanditById st req.panditId with
  | none => .error .notFound
  | some p =>
    if p.verificationStatus ≠ .VERIFIED then .error .stateConflict else
    if p.isAvailable = false then .error .stateConflict else
    match findPooja st req.poojaId with
    | none => .error .notFound
    | some _ =>
      match findFreeSlot st p.id (dateOf req.scheduledAt) with
      | none => .error .stateConflict
      | some _ =>
        match lockLookup st (slotKey p.id req.scheduledAt) with
        | some _ => .error .slotHeld
        | none => .error .pricingTypeError

-- ── POST /bookings/{id}/payment-confirmed (router lines 220-256) ─────

/-- payment_confirmed.  Guard: status in (SLOT_LOCKED, PAYMENT_PENDING);
then writes status := AWAITING_PANDIT and adds one notification if the
pandit profile exists.  The source has the comment `# Audit log` at line 239
but appends NO BookingAuditLog row, and performs no signature check. -/
def paymentConfirmed (st : St) (bid : Nat) : Except ApiErr St :=
  match findBooking st bid with
  | none => .error .notFound
  | some b =>
    if b.status = .SLOT_LOCKED ∨ b.status = .PAYMENT_PENDING then
      let st1 := updateBooking st bid (fun x => { x with status := .AWAITING_PANDIT })
      match findPanditById st1 b.panditId with
      | some _ => .ok { st1 with notifs := st1.notifs + 1 }
      | none => .ok st1
    else
      .error .stateConflict

-- ── POST /bookings/{id}/accept (router lines 261-324) ────────────────

/-- Deadline guard of accept_booking (router line 287): rejects when the
deadline is set and `now > deadline`; a missing deadline is never late. -/
def deadlinePassed (now : Nat) : Option Nat → Bool
  | some d => decide (d < now)
  | none => false

/-- accept_booking.  require_pandit; ownership check; status must be
AWAITING_PANDIT; deadline check (`now > accept_deadline` rejects); then
status := CONFIRMED, mark first free slot booked, delete the Redis lock,
append an audit row, add a notification. -/
def acceptBooking (st : St) (actor : Actor) (bid now : Nat) : Except ApiErr St :=
  if actor.role ≠ .PANDIT then .error .forbidden else
  match findBooking st bid with
  | none => .error .notFound
  | some b =>
    match findPanditByUser st actor.id with
    | none => .error .forbidden
    | some p =>
      if b.panditId ≠ p.id then .error .forbidden else
      if b.status ≠ .AWAITING_PANDIT then .error .stateConflict else
      if deadlinePassed now b.acceptDeadline then .error .stateConflict else
      let st1 := updateBooking st bid
        (fun x => { x with status := .CONFIRMED, confirmedAt := some now })
      let st2 := { st1 with
        slots := markFirstFree st1.slots p.id (dateOf b.scheduledAt) b.id }
      let st3 := removeLock st2 (slotKey p.id b.scheduledAt)
      let st4 := appendAudit st3
        { bookingId := b.id, fromStatus := some b.status,
          toStatus := .CONFIRMED, changedById := some actor.id, reason := none }
      .ok { st4 with notifs := st4.notifs + 1 }

-- ── POST /bookings/{id}/decline (router lines 327-379) ───────────────

/-- decline_booking.  require_pandit; ownership; status must be
AWAITING_PANDIT; then status := DECLINED with reason, delete the Redis
lock, append an audit row, add a notification. -/
def declineBooking (st : St) (actor : Actor) (bid : Nat) (reason : String)
    (now : Nat) : Except ApiErr St :=
  if actor.role ≠ .PANDIT then .error .forbidden else
  match findBooking st bid with
  | none => .error .notFound
  | some b =>
    match findPanditByUser st actor.id with
    | none => .error .forbidden
    | some p =>
      if b.panditId ≠ p.id then .error .forbidden else
      if b.status ≠ .AWAITING_PANDIT then .error .stateConflict else
      let st1 := updateBooking st bid
        (fun x => { x with status := .DECLINED, declineReason := some reason,
                           cancelledAt := some now })
      let st2 := removeLock st1 (slotKey p.id b.scheduledAt)
      let st3 := appendAudit st2
        { bookingId := b.id, fromStatus := some b.status,
          toStatus := .DECLINED, changedById := some actor.id,
          reason := some reason }
      .ok { st3 with notifs := st3.notifs + 1 }

-- ── POST /bookings/{id}/complete (router lines 382-411) ──────────────

/-- complete_booking.  require_pandit; ownership; status must be CONFIRMED;
then status := COMPLETED and one audit row (no notification, no slot or
lock change in the source). -/
def completeBooking (st : St) (actor : Actor) (bid now : Nat) : Except ApiErr St :=
  if actor.role ≠ .PANDIT then .error .forbidden else
  match findBooking st bid with
  | none => .error .notFound
  | some b =>
    match findPanditByUser st actor.id with
    | none => .error .forbidden
    | some p =>
      if b.panditId ≠ p.id then .error .forbidden else
      if b.status ≠ .CONFIRMED then .error .stateConflict else
      let st1 := updateBooking st bid
        (fun x => { x with status := .COMPLETED, completedAt := some now })
      .ok (appendAudit st1
        { bookingId := b.id, fromStatus := some b.status,
          toStatus := .COMPLETED, changedById := some actor.id, reason := none })

-- ── POST /bookings/{id}/cancel (router lines 414-476) ────────────────

/-- Statuses accepted by cancel_booking (router lines 432-437). -/
def cancellable (s : BookingStatus) : Bool :=
  s == .SLOT_LOCKED || s == .PAYMENT_PENDING ||
  s == .AWAITING_PANDIT || s == .CONFIRMED

/-- cancel_booking.  Authorization (line 429): only a USER-role caller who
does not own the booking is rejected — a PANDIT- or ADMIN-role caller
passes.  Status must be cancellable; then status := CANCELLED with reason
and canceller role, delete the Redis lock and clear the booked slot when
the pandit profile exists, append an audit row. -/
def cancelBooking (st : St) (actor : Actor) (bid : Nat) (reason : String)
    (now : Nat) : Except ApiErr St :=
  match findBooking st bid with
  | none => .error .notFound
  | some b =>
    if actor.role = .USER ∧ b.userId ≠ actor.id then .error .forbidden else
    if cancellable b.status = false then .error .stateConflict else
    let st1 := updateBooking st bid
      (fun x => { x with status := .CANCELLED,
                         cancellationReason := some reason,
                         cancelledBy := some (roleValue actor.role),
                         cancelledAt := some now })
    let st2 :=
      match findPanditById st1 b.panditId with
      | none => st1
      | some p =>
        let sA := removeLock st1 (slotKey p.id b.scheduledAt)
        { sA with slots := clearSlotOf sA.slots b.id }
    .ok (appendAudit st2
      { bookingId := b.id, fromStatus := some b.status,
        toStatus := .CANCELLED, changedById := some actor.id,
        reason := some reason })

-- ── POST /payments/verify (payment/router.py lines 132-192) ──────────

/-- Request body of POST /payments/verify. -/
structure VerifyReq where
  bookingId : Nat
  razorpayOrderId : String
  razorpayPaymentId : String
  razorpaySignature : String
deriving DecidableEq, Repr

/-- verify_payment.  Checks the HMAC signature over `order_id|payment_id`
(rejecting on mismatch, before any write); marks the payment CAPTURED; then,
if the booking referenced by the request exists, writes
status := AWAITING_PANDIT WITHOUT checking the booking's current status
(source lines 172-174 contain no status guard) and appends NO audit row. -/
def verifyPayment (st : St) (req : VerifyReq) (now : Nat) : Except ApiErr St :=
  let expected := hmacSHA256 razorpayKeySecret
    (req.razorpayOrderId ++ "|" ++ req.razorpayPaymentId)
  if expected ≠ req.razorpaySignature then .error .invalidSignature else
  let st0 := { st with sigVerified := st.sigVerified + 1 }
  match findPaymentByOrder st0 req.razorpayOrderId with
  | none => .error .notFound
  | some pay =>
    let st1 := updatePayment st0 pay.id
      (fun q => { q with razorpayPaymentId := some req.razorpayPaymentId,
                         razorpaySignature := some req.razorpaySignature,
                         status := .CAPTURED, capturedAt := some now })
    match findBooking st1 req.bookingId with
    | none => .ok st1
    | some b =>
      let st2 := updateBooking st1 b.id
        (fun x => { x with status := .AWAITING_PANDIT })
      match findPanditById st2 b.panditId with
      | some _ => .ok { st2 with notifs := st2.notifs + 1 }
      | none => .ok st2

-- ── POST /payments/webhook (payment/router.py lines 197-261) ─────────

/-- Webhook event discriminator (the `event` field of the payload). -/
inductive WebhookEvent where
  | captured
  | failed
  | refundProcessed
  | other
deriving DecidableEq, Repr

/-- Parsed webhook payload: raw body (for the HMAC), provided signature,
event, and the fields read from the payment / refund entities. -/
structure WebhookPayload where
  body : String
  signature : String
  event : WebhookEvent
  orderId : Option String
  paymentId : Option String
  refundId : Option String
  refundAmountPaise : Nat
deriving DecidableEq, Repr

/-- razorpay_webhook.  HMAC check over the raw body; missing order id or
unknown payment are acknowledged without writes.  payment.captured sets the
payment CAPTURED if not already; payment.failed sets the payment FAILED and,
only when the booking is currently PAYMENT_PENDING, cancels it (writing no
audit row); refund.processed records the refund fields. -/
def razorpayWebhook (st : St) (w : WebhookPayload) (now : Nat) : Except ApiErr St :=
  if hmacSHA256 razorpayWebhookSecret w.body ≠ w.signature then
    .error .invalidSignature
  else
  let st0 := { st with sigVerified := st.sigVerified + 1 }
  match w.orderId with
  | none => .ok st0
  | some oid =>
    match findPaymentByOrder st0 oid with
    | none => .ok st0
    | some pay =>
      match w.event with
      | .captured =>
        if pay.status ≠ .CAPTURED then
          .ok (updatePayment st0 pay.id
            (fun q => { q with status := .CAPTURED,
                               razorpayPaymentId := w.paymentId,
                               capturedAt := some now }))
        else
          .ok st0
      | .failed =>
        let st1 := updatePayment st0 pay.id (fun q => { q with status := .FAILED })
        match findBooking st1 pay.bookingId with
        | some b =>
          if b.status = .PAYMENT_PENDING then
            .ok (updateBooking st1 b.id
              (fun x => { x with status := .CANCELLED,
                                 cancellationReason := some ("Payment failed"),
                                 cancelledAt := some now }))
          else
            .ok st1
        | none => .ok st1
      | .refundProcessed =>
        .ok (updatePayment st0 pay.id
          (fun q => { q with status := .REFUNDED,
                             refundId := w.refundId,
                             refundAmount := w.refundAmountPaise / 100,
                             refundedAt := some now }))
      | .other => .ok st0

-- ── release_expired_slot_locks (payment_tasks.py lines 252-311) ──────

/-- Selection predicate of the sweep query (lines 272-277): status is
SLOT_LOCKED or PAYMENT_PENDING — and nothing else — with a passed
accept_deadline (a NULL deadline never satisfies the SQL comparison). -/
def isExpiredStuck (now : Nat) (b : Booking) : Bool :=
  (b.status == .SLOT_LOCKED || b.status == .PAYMENT_PENDING) &&
  (match b.acceptDeadline with
   | some d => decide (d < now)
   | none => false)

/-- Per-booking mutation of the sweep loop (lines 284-287). -/
def cancelExpired (now : Nat) (b : Booking) : Booking :=
  { b with status := .CANCELLED,
           cancellationReason := some ("Payment window expired - auto-cancelled"),
           cancelledAt := some now }

/-- Audit row added by the sweep for each expired booking (lines 290-296). -/
def expiredAuditEntry (b : Booking) : AuditEntry :=
  { bookingId := b.id, fromStatus := some b.status,
    toStatus := .CANCELLED, changedById := none,
    reason := some ("Payment window expired - auto-cancelled by system") }

/-- release_expired_slot_locks: cancel each selected booking, append one
audit row each (in booking order), and delete each one's Redis slot key.
The whole task commits once at the end (line 304). -/
def releaseExpiredSlotLocks (st : St) (now : Nat) : St :=
  { st with
    bookings := st.bookings.map
      (fun b => if isExpiredStuck now b then cancelExpired now b else b),
    audit := st.audit ++
      (st.bookings.filter (isExpiredStuck now)).map expiredAuditEntry,
    locks := st.locks.filter (fun kv =>
      !(st.bookings.any (fun b =>
        isExpiredStuck now b && kv.fst == slotKey b.panditId b.scheduledAt))) }

-- ── process_single_payout (payment_tasks.py lines 43-138) ────────────

/-- Exit reason of one run of process_single_payout. -/
inductive PayoutOutcome where
  | paymentNotFound
  | alreadyPaidOut
  | notCaptured
  | bookingNotCompleted
  | panditNotFound
  | attrError
deriving DecidableEq, Repr

/-- process_single_payout.  Guards in source order: payment exists; skip if
payout_id already set (idempotency, line 68); payment must be CAPTURED
(line 72); booking exists and is COMPLETED (line 80); pandit profile exists
(line 87).  Line 92 then evaluates `payment.pandit_payout`, but the Payment
model defines no `pandit_payout` column (it is a Booking column,
models.py line 418), so the attribute access raises AttributeError; the
handler at line 133 rolls back and retries.  Every branch therefore leaves
the database unchanged; the payout-field writes at lines 125-127 are
unreachable. -/
def processSinglePayout (st : St) (pid : Nat) : PayoutOutcome × St :=
  match findPaymentById st pid with
  | none => (.paymentNotFound, st)
  | some pay =>
    if pay.payoutId.isSome then (.alreadyPaidOut, st)
    else if pay.status ≠ .CAPTURED then (.notCaptured, st)
    else
      match findBooking st pay.bookingId with
      | none => (.bookingNotCompleted, st)
      | some b =>
        if b.status ≠ .COMPLETED then (.bookingNotCompleted, st)
        else
          match findPanditById st b.panditId with
          | none => (.panditNotFound, st)
          | some _ => (.attrError, st)

/-- process_pending_payouts (payment_tasks.py lines 141-177).  Building the
sweep query at lines 153-162 evaluates `Payment.pandit_payout`, an attribute
the Payment model does not define, raising AttributeError; the bare except
at line 174 swallows it, so the task enqueues nothing and writes nothing. -/
def processPendingPayouts (st : St) : PayoutOutcome × St :=
  (.attrError, st)

-- ── Audit-replay invariant (spec section 8, first bullet) ────────────

/-- to_status of the most recent audit row of a booking. -/
def lastAuditStatus (st : St) (bid : Nat) : Option BookingStatus :=
  ((st.audit.filter (fun e => e.bookingId == bid)).getLast?).map
    (fun e => e.toStatus)

/-- Decidable form of the invariant: every booking's current status equals
the to_status of its most recent audit row. -/
def auditConsistent (st : St) : Bool :=
  st.bookings.all (fun b => lastAuditStatus st b.id == some b.status)

-- ── Concrete fixtures used by witnesses and counterexamples ──────────

/-- A booking as create_booking would produce it (base fee 1000, 10 percent
commission): SLOT_LOCKED, total 1100, fee 100, payout 900, deadline two
hours before the scheduled time. -/
def baseBooking : Booking :=
  { id := 1, bookingNumber := "PB-2024-AAAAA", userId := 10, panditId := 1,
    poojaId := 2, scheduledAt := 240, status := .SLOT_LOCKED,
    acceptDeadline := some 238, baseAmount := 1000, platformFee := 100,
    totalAmount := 1100, panditPayout := 900,
    cancellationReason := none, declineReason := none, cancelledBy := none,
    confirmedAt := none, completedAt := none, cancelledAt := none }

/-- A verified, available pandit with base fee 1000 and no per-pooja fees. -/
def basePandit : PanditProfile :=
  { id := 1, userId := 55, verificationStatus := .VERIFIED,
    isAvailable := true, baseFee := 1000, poojaFees := none }

/-- A payment row for baseBooking with gateway order ord1. -/
def basePayment : Payment :=
  { id := 1, bookingId := 1, userId := 10,
    razorpayOrderId := some ("ord1"), razorpayPaymentId := none,
    razorpaySignature := none, amount := 1100, platformFee := 100,
    status := .PENDING, refundId := none, refundAmount := 0,
    capturedAt := none, refundedAt := none, payoutId := none,
    payoutAmount := 0, payoutAt := none }

/-- The empty store. -/
def emptySt : St :=
  { bookings := [], audit := [], payments := [], slots := [], pandits := [],
    poojas := [], locks := [], notifs := 0, sigVerified := 0 }

/-- State for C1: one SLOT_LOCKED booking whose audit trail is consistent
(a single creation entry with to_status SLOT_LOCKED). -/
def stC1 : St :=
  { emptySt with
    bookings := [baseBooking],
    audit := [{ bookingId := 1, fromStatus := none,
                toStatus := .SLOT_LOCKED, changedById := some 10,
                reason := none }],
    pandits := [basePandit] }

/-- State for C2: the booking is COMPLETED (terminal) and its captured
payment row still exists. -/
def bookingC2 : Booking :=
  { baseBooking with status := .COMPLETED, completedAt := some 300 }

/-- Store holding bookingC2, its payment, and the pandit. -/
def stC2 : St :=
  { emptySt with
    bookings := [bookingC2],
    payments := [basePayment],
    pandits := [basePandit] }

/-- A verify request for order ord1 carrying the correct signature. -/
def reqC2 : VerifyReq :=
  { bookingId := 1, razorpayOrderId := "ord1", razorpayPaymentId := "pay1",
    razorpaySignature := hmacSHA256 razorpayKeySecret ("ord1|pay1") }

-- ── Claim theorems ───────────────────────────────────────────────────

/-- Claim C1 (code bug): the audit-replay invariant does not survive
payment_confirmed.  Starting from a consistent state (booking SLOT_LOCKED,
last audit row SLOT_LOCKED), payment_confirmed succeeds and writes
AWAITING_PANDIT but appends no audit row, so afterwards the current status
differs from the most recent audit entry's to_status. -/
theorem paymentConfirmed_breaks_audit_replay :
    auditConsistent stC1 = true
    ∧ resultOk (paymentConfirmed stC1 1) = true
    ∧ (findBooking (run stC1 (paymentConfirmed stC1 1)) 1).map Booking.status
        = some .AWAITING_PANDIT
    ∧ auditConsistent (run stC1 (paymentConfirmed stC1 1)) = false := by
  decide

/-- Claim C2 (code bug): verify_payment writes AWAITING_PANDIT with no
check of the booking's current status, so a COMPLETED (terminal) booking
with a matching payment and a valid signature is moved back to
AWAITING_PANDIT. -/
theorem verifyPayment_moves_completed_to_awaiting :
    (findBooking stC2 1).map Booking.status = some .COMPLETED
    ∧ resultOk (verifyPayment stC2 reqC2 301) = true
    ∧ (findBooking (run stC2 (verifyPayment stC2 reqC2 301)) 1).map
        Booking.status = some .AWAITING_PANDIT := by
  decide

/-- State for C3: one SLOT_LOCKED booking; no signature verification has
happened (ghost counter 0). -/
def stC3 : St :=
  { emptySt with bookings := [baseBooking], pandits := [basePandit] }

/-- Claim C3 counterexample: payment_confirmed moves a SLOT_LOCKED booking
to AWAITING_PANDIT while the count of successful signature verifications
stays zero — an execution path that writes AWAITING_PANDIT with no
preceding signature verification. -/
theorem paymentConfirmed_writes_awaiting_without_verification :
    stC3.sigVerified = 0
    ∧ resultOk (paymentConfirmed stC3 1) = true
    ∧ (findBooking (run stC3 (paymentConfirmed stC3 1)) 1).map Booking.status
        = some .AWAITING_PANDIT
    ∧ (run stC3 (paymentConfirmed stC3 1)).sigVerified = 0 := by
  decide

/-- Claim C3 as amended: every successful verify_payment call has checked
the signature (its success implies the provided signature equals the
expected HMAC, and the verification counter advanced); the internal
payment-confirmed endpoint, by contrast, performs no signature verification
at all (the counter never advances). -/
theorem awaitingPandit_signature_discipline :
    (∀ st req now st1, verifyPayment st req now = Except.ok st1 →
        hmacSHA256 razorpayKeySecret
            (req.razorpayOrderId ++ "|" ++ req.razorpayPaymentId)
          = req.razorpaySignature
        ∧ st1.sigVerified = st.sigVerified + 1)
    ∧ (∀ st bid st1, paymentConfirmed st bid = Except.ok st1 →
        st1.sigVerified = st.sigVerified) := by
  constructor
  · intro st req now st1 h
    simp only [verifyPayment] at h
    split at h
    · exact Except.noConfusion h
    next hsig =>
      refine ⟨not_not.mp hsig, ?_⟩
      split at h
      · exact Except.noConfusion h
      next pay hpay =>
        split at h
        · injection h with h2
          subst h2
          rfl
        next b hb =>
          split at h
          · injection h with h2
            subst h2
            rfl
          · injection h with h2
            subst h2
            rfl
  · intro st bid st1 h
    simp only [paymentConfirmed] at h
    split at h
    · exact Except.noConfusion h
    next b hb =>
      split at h
      · split at h
        · injection h with h2
          subst h2
          rfl
        · injection h with h2
          subst h2
          rfl
      · exact Except.noConfusion h

/-- Witness for the amended C3 theorem at concrete inputs: a successful
verify_payment run advanced the verification counter, and a successful
payment_confirmed run left it untouched. -/
theorem awaitingPandit_signature_discipline_witness :
    (hmacSHA256 razorpayKeySecret ("ord1" ++ "|" ++ "pay1")
        = reqC2.razorpaySignature
      ∧ (run stC2 (verifyPayment stC2 reqC2 301)).sigVerified
        = stC2.sigVerified + 1)
    ∧ (run stC3 (paymentConfirmed stC3 1)).sigVerified = stC3.sigVerified := by
  refine ⟨awaitingPandit_signature_discipline.1 stC2 reqC2 301
      (run stC2 (verifyPayment stC2 reqC2 301)) (by decide), ?_⟩
  exact awaitingPandit_signature_discipline.2 stC3 1
      (run stC3 (paymentConfirmed stC3 1)) (by decide)

/-- Pooja fixture for create-booking scenarios. -/
def poojaC4 : Pooja := { id := 2, avgDurationHrs := 2 }

/-- A free availability slot of pandit 1 on day 10. -/
def slotC4 : AvailabilitySlot :=
  { id := 7, panditId := 1, date := 10, isBooked := false,
    isBlocked := false, bookingId := none }

/-- State for C4/C5: verified available pandit with base fee 1000, existing
pooja, a free slot on the requested date, and no live slot lock. -/
def stC4 : St :=
  { emptySt with
    pandits := [basePandit],
    poojas := [poojaC4],
    slots := [slotC4] }

/-- Create request matching stC4 (scheduled hour 240 falls on day 10). -/
def reqC4 : CreateReq := { panditId := 1, poojaId := 2, scheduledAt := 240 }

/-- Customer actor for the create-booking scenarios. -/
def actorC4 : Actor := { id := 20, role := .USER }

/-- Claim C4 (code bug): in the spec scenario (base amount 1000, 10 percent
commission, all pre-checks passing) create_booking does not return a
SLOT_LOCKED booking with total 1100 / fee 100 / payout 900 — it raises the
unhandled TypeError of line 183 and persists nothing. -/
theorem create_scenario_raises_not_slot_locked :
    platformCommissionPercent = 10
    ∧ basePandit.baseFee = 1000
    ∧ createBooking stC4 actorC4 reqC4 = Except.error ApiErr.pricingTypeError
    ∧ run stC4 (createBooking stC4 actorC4 reqC4) = stC4 := by
  decide

/-- Claim C5: every create-booking request that passes the provider,
service-type, availability, and slot-lock pre-checks reaches the pricing
step and fails with the unhandled TypeError; no booking is persisted and no
201/SLOT_LOCKED response is returned. -/
theorem create_prechecks_imply_pricing_error :
    ∀ st actor req p pj s,
      actor.role ≠ .PANDIT →
      findPanditById st req.panditId = some p →
      p.verificationStatus = .VERIFIED →
      p.isAvailable = true →
      findPooja st req.poojaId = some pj →
      findFreeSlot st p.id (dateOf req.scheduledAt) = some s →
      lockLookup st (slotKey p.id req.scheduledAt) = none →
      createBooking st actor req = Except.error ApiErr.pricingTypeError
      ∧ run st (createBooking st actor req) = st := by
  intro st actor req p pj s h1 h2 h3 h4 h5 h6 h7
  have hc : createBooking st actor req = Except.error ApiErr.pricingTypeError := by
    simp [createBooking, h1, h2, h3, h4, h5, h6, h7]
  refine ⟨hc, ?_⟩
  rw [hc]
  rfl

/-- Witness for C5: the pre-checks hold at the concrete stC4 scenario and
the conclusion evaluates there. -/
theorem create_prechecks_imply_pricing_error_witness :
    createBooking stC4 actorC4 reqC4 = Except.error ApiErr.pricingTypeError
    ∧ run stC4 (createBooking stC4 actorC4 reqC4) = stC4 :=
  create_prechecks_imply_pricing_error stC4 actorC4 reqC4 basePandit poojaC4
    slotC4 (by decide) (by decide) (by decide) (by decide) (by decide)
    (by decide) (by decide)

/-- A rolled-back call leaves the store unchanged. -/
theorem run_error (st : St) (e : ApiErr) : run st (Except.error e) = st := rfl

/-- Terminal booking (invalid source for accept, decline, cancel). -/
def bookingW1 : Booking := { baseBooking with status := .COMPLETED }

/-- AWAITING_PANDIT booking with deadline 238 (invalid source for
complete; late for accept at hour 300). -/
def bookingW2 : Booking := { baseBooking with id := 2, status := .AWAITING_PANDIT }

/-- Witness store for the guard claims. -/
def stW : St :=
  { emptySt with
    bookings := [bookingW1, bookingW2],
    pandits := [basePandit] }

/-- The assigned pandit (owner of the profile of pandit 1). -/
def actorP : Actor := { id := 55, role := .PANDIT }

/-- The customer who owns the bookings. -/
def actorU : Actor := { id := 10, role := .USER }

/-- Reason string used by the witnesses. -/
def rW : String := "guard-check"

/-- Claim C6: for a booking whose current status is not a valid source for
the attempted transition, accept, decline, complete, and cancel (called by
an actor passing the endpoint's authorization checks) each return the
400-class StateConflictError and write nothing. -/
theorem transition_guards_are_total :
    ApiErr.httpCode .stateConflict = 400
    ∧ (∀ st a bid now b p, a.role = .PANDIT →
        findBooking st bid = some b →
        findPanditByUser st a.id = some p → b.panditId = p.id →
        b.status ≠ .AWAITING_PANDIT →
        acceptBooking st a bid now = Except.error ApiErr.stateConflict
        ∧ run st (acceptBooking st a bid now) = st)
    ∧ (∀ st a bid r now b p, a.role = .PANDIT →
        findBooking st bid = some b →
        findPanditByUser st a.id = some p → b.panditId = p.id →
        b.status ≠ .AWAITING_PANDIT →
        declineBooking st a bid r now = Except.error ApiErr.stateConflict
        ∧ run st (declineBooking st a bid r now) = st)
    ∧ (∀ st a bid now b p, a.role = .PANDIT →
        findBooking st bid = some b →
        findPanditByUser st a.id = some p → b.panditId = p.id →
        b.status ≠ .CONFIRMED →
        completeBooking st a bid now = Except.error ApiErr.stateConflict
        ∧ run st (completeBooking st a bid now) = st)
    ∧ (∀ st a bid r now b,
        findBooking st bid = some b →
        ¬(a.role = .USER ∧ b.userId ≠ a.id) →
        cancellable b.status = false →
        cancelBooking st a bid r now = Except.error ApiErr.stateConflict
        ∧ run st (cancelBooking st a bid r now) = st) := by
  refine ⟨rfl, ?_, ?_, ?_, ?_⟩
  · intro st a bid now b p h1 h2 h3 h4 h5
    have hc : acceptBooking st a bid now = Except.error ApiErr.stateConflict := by
      simp [acceptBooking, h1, h2, h3, h4, h5]
    exact ⟨hc, by rw [hc, run_error]⟩
  · intro st a bid r now b p h1 h2 h3 h4 h5
    have hc : declineBooking st a bid r now = Except.error ApiErr.stateConflict := by
      simp [declineBooking, h1, h2, h3, h4, h5]
    exact ⟨hc, by rw [hc, run_error]⟩
  · intro st a bid now b p h1 h2 h3 h4 h5
    have hc : completeBooking st a bid now = Except.error ApiErr.stateConflict := by
      simp [completeBooking, h1, h2, h3, h4, h5]
    exact ⟨hc, by rw [hc, run_error]⟩
  · intro st a bid r now b h2 ha hs
    have hc : cancelBooking st a bid r now = Except.error ApiErr.stateConflict := by
      simp [cancelBooking, h2, ha, hs]
    exact ⟨hc, by rw [hc, run_error]⟩

/-- Witness for C6 at concrete stores: accept, decline, and cancel on a
COMPLETED booking, complete on an AWAITING_PANDIT booking, each rejected
with no writes. -/
theorem transition_guards_are_total_witness :
    (acceptBooking stW actorP 1 300 = Except.error ApiErr.stateConflict
      ∧ run stW (acceptBooking stW actorP 1 300) = stW)
    ∧ (declineBooking stW actorP 1 rW 300 = Except.error ApiErr.stateConflict
      ∧ run stW (declineBooking stW actorP 1 rW 300) = stW)
    ∧ (completeBooking stW actorP 2 300 = Except.error ApiErr.stateConflict
      ∧ run stW (completeBooking stW actorP 2 300) = stW)
    ∧ (cancelBooking stW actorU 1 rW 300 = Except.error ApiErr.stateConflict
      ∧ run stW (cancelBooking stW actorU 1 rW 300) = stW) := by
  refine ⟨transition_guards_are_total.2.1 stW actorP 1 300 bookingW1 basePandit
      (by decide) (by decide) (by decide) (by decide) (by decide),
    transition_guards_are_total.2.2.1 stW actorP 1 rW 300 bookingW1 basePandit
      (by decide) (by decide) (by decide) (by decide) (by decide),
    transition_guards_are_total.2.2.2.1 stW actorP 2 300 bookingW2 basePandit
      (by decide) (by decide) (by decide) (by decide) (by decide),
    transition_guards_are_total.2.2.2.2 stW actorU 1 rW 300 bookingW1
      (by decide) (by decide) (by decide)⟩

/-- Claim C7: accepting an AWAITING_PANDIT booking after its accept
deadline, by the assigned pandit, returns the 400 StateConflictError and
changes nothing. -/
theorem accept_after_deadline_rejected :
    ∀ st a bid now b p d, a.role = .PANDIT →
      findBooking st bid = some b →
      findPanditByUser st a.id = some p → b.panditId = p.id →
      b.status = .AWAITING_PANDIT →
      b.acceptDeadline = some d → d < now →
      acceptBooking st a bid now = Except.error ApiErr.stateConflict
      ∧ run st (acceptBooking st a bid now) = st := by
  intro st a bid now b p d h1 h2 h3 h4 h5 h6 h7
  have hc : acceptBooking st a bid now = Except.error ApiErr.stateConflict := by
    simp [acceptBooking, h1, h2, h3, h4, h5, h6, deadlinePassed, h7]
  exact ⟨hc, by rw [hc, run_error]⟩

/-- Witness for C7: booking 2 of stW is AWAITING_PANDIT with deadline hour
238; at hour 300 the assigned pandit's accept is rejected. -/
theorem accept_after_deadline_rejected_witness :
    acceptBooking stW actorP 2 300 = Except.error ApiErr.stateConflict
    ∧ run stW (acceptBooking stW actorP 2 300) = stW :=
  accept_after_deadline_rejected stW actorP 2 300 bookingW2 basePandit 238
    (by decide) (by decide) (by decide) (by decide) (by decide) (by decide)
    (by decide)

/-- Expired AWAITING_PANDIT booking (deadline hour 5, slot hour 7). -/
def bookingC8a : Booking :=
  { baseBooking with status := .AWAITING_PANDIT, acceptDeadline := some 5,
                     scheduledAt := 7 }

/-- Expired CONFIRMED booking. -/
def bookingC8b : Booking :=
  { baseBooking with id := 2, status := .CONFIRMED, acceptDeadline := some 5,
                     scheduledAt := 7 }

/-- Store for the C8 counterexample: both non-terminal bookings are past
their deadlines and a slot-lock key is live. -/
def stC8 : St :=
  { emptySt with
    bookings := [bookingC8a, bookingC8b],
    locks := [(slotKey 1 7, 1)] }

/-- Claim C8 counterexample: one sweep run at hour 10 leaves an
AWAITING_PANDIT booking and a CONFIRMED booking — both non-terminal, both
past their accept deadlines — completely untouched (no cancellation, no
audit row, the lock still live): the store is unchanged. -/
theorem sweep_skips_awaiting_and_confirmed :
    bookingC8a.status = .AWAITING_PANDIT
    ∧ bookingC8b.status = .CONFIRMED
    ∧ deadlinePassed 10 bookingC8a.acceptDeadline = true
    ∧ deadlinePassed 10 bookingC8b.acceptDeadline = true
    ∧ releaseExpiredSlotLocks stC8 10 = stC8 := by
  decide

/-- Claim C8 as amended: the sweep selects exactly the bookings in
SLOT_LOCKED or PAYMENT_PENDING with a passed accept deadline; each selected
booking is cancelled, gets one audit row, and has its slot-lock key
deleted; every other booking (in particular AWAITING_PANDIT and CONFIRMED
ones) is carried over unchanged. -/
theorem sweep_cancels_slotlocked_and_paymentpending :
    (∀ now b, isExpiredStuck now b = true ↔
        (b.status = .SLOT_LOCKED ∨ b.status = .PAYMENT_PENDING)
        ∧ deadlinePassed now b.acceptDeadline = true)
    ∧ (∀ st now b, b ∈ st.bookings → isExpiredStuck now b = true →
        cancelExpired now b ∈ (releaseExpiredSlotLocks st now).bookings
        ∧ (cancelExpired now b).status = .CANCELLED
        ∧ expiredAuditEntry b ∈ (releaseExpiredSlotLocks st now).audit
        ∧ lockLookup (releaseExpiredSlotLocks st now)
            (slotKey b.panditId b.scheduledAt) = none)
    ∧ (∀ st now b, b ∈ st.bookings → isExpiredStuck now b = false →
        b ∈ (releaseExpiredSlotLocks st now).bookings) := by
  refine ⟨?_, ?_, ?_⟩
  · intro now b
    cases hb : b.acceptDeadline with
    | none => simp [isExpiredStuck, deadlinePassed, hb]
    | some d => simp [isExpiredStuck, deadlinePassed, hb]
  · intro st now b hb hx
    refine ⟨?_, rfl, ?_, ?_⟩
    · have hm := List.mem_map_of_mem
        (fun x => if isExpiredStuck now x then cancelExpired now x else x) hb
      simpa [releaseExpiredSlotLocks, hx] using hm
    · have hf : b ∈ st.bookings.filter (isExpiredStuck now) :=
        List.mem_filter.mpr ⟨hb, hx⟩
      have hm := List.mem_map_of_mem expiredAuditEntry hf
      simp only [releaseExpiredSlotLocks]
      exact List.mem_append.mpr (Or.inr hm)
    · simp only [releaseExpiredSlotLocks, lockLookup]
      have hnone :
          (st.locks.filter (fun kv =>
            !(st.bookings.any (fun b2 =>
              isExpiredStuck now b2 &&
                kv.fst == slotKey b2.panditId b2.scheduledAt)))).find?
            (fun kv => kv.fst == slotKey b.panditId b.scheduledAt) = none := by
        apply List.find?_eq_none.mpr
        intro kv hkv
        have hq := (List.mem_filter.mp hkv).2
        intro hkb
        have hany : st.bookings.any (fun b2 =>
            isExpiredStuck now b2 &&
              kv.fst == slotKey b2.panditId b2.scheduledAt) = true :=
          List.any_eq_true.mpr ⟨b, hb, by simp [hx, hkb]⟩
        rw [hany] at hq
        exact absurd hq (by decide)
      rw [hnone]
      rfl
  · intro st now b hb hx
    have hm := List.mem_map_of_mem
      (fun x => if isExpiredStuck now x then cancelExpired now x else x) hb
    simpa [releaseExpiredSlotLocks, hx] using hm

/-- Expired SLOT_LOCKED booking for the C8 witness. -/
def bookingC8c : Booking :=
  { baseBooking with acceptDeadline := some 5, scheduledAt := 7 }

/-- Store for the C8 witness. -/
def stC8w : St :=
  { emptySt with
    bookings := [bookingC8c],
    locks := [(slotKey 1 7, 1)] }

/-- Witness for the amended C8 theorem: a concrete expired SLOT_LOCKED
booking is cancelled with an audit row and its lock key removed. -/
theorem sweep_cancels_slotlocked_and_paymentpending_witness :
    cancelExpired 10 bookingC8c ∈ (releaseExpiredSlotLocks stC8w 10).bookings
    ∧ expiredAuditEntry bookingC8c ∈ (releaseExpiredSlotLocks stC8w 10).audit
    ∧ lockLookup (releaseExpiredSlotLocks stC8w 10)
        (slotKey bookingC8c.panditId bookingC8c.scheduledAt) = none := by
  have h := sweep_cancels_slotlocked_and_paymentpending.2.1 stC8w 10 bookingC8c
      (by decide) (by decide)
  exact ⟨h.1, h.2.2.1, h.2.2.2⟩

/-- CONFIRMED booking owned by customer 10, assigned to pandit 1. -/
def bookingC9 : Booking :=
  { baseBooking with status := .CONFIRMED, confirmedAt := some 100 }

/-- Store for C9. -/
def stC9 : St :=
  { emptySt with
    bookings := [bookingC9],
    pandits := [basePandit] }

/-- A PANDIT-role user (id 99) who is no party to booking 1. -/
def actorC9 : Actor := { id := 99, role := .PANDIT }

/-- Reason string for the C9 call. -/
def reasonC9 : String := "cancelled by a stranger"

/-- Claim C9 (code bug): the cancel authorization check only rejects
USER-role callers who do not own the booking, so a PANDIT-role user who is
not a party to the booking cancels it successfully (no 403, booking moved
to CANCELLED). -/
theorem pandit_role_cancels_foreign_booking :
    bookingC9.userId = 10
    ∧ actorC9.id = 99
    ∧ actorC9.role = .PANDIT
    ∧ resultOk (cancelBooking stC9 actorC9 1 reasonC9 200) = true
    ∧ (findBooking (run stC9 (cancelBooking stC9 actorC9 1 reasonC9 200)) 1).map
        Booking.status = some .CANCELLED := by
  decide

/-- One run of process_single_payout never changes the store: every guard
branch returns early, and on the would-be payout path the AttributeError
at payment_tasks.py line 92 aborts the task before any write (rollback). -/
theorem processSinglePayout_state_fixed (st : St) (pid : Nat) :
    (processSinglePayout st pid).2 = st := by
  unfold processSinglePayout
  repeat' split
  all_goals rfl

/-- Claim C10: payout processing is idempotent — any number of runs of the
payout task leaves every payment's payout fields as they were (so they are
set at most once), the nightly sweep writes nothing, and a run on a payment
whose payout_id is already set exits through the idempotency guard with the
store untouched. -/
theorem payout_fields_set_at_most_once :
    ∀ st pid n pay,
      Nat.iterate (fun s => (processSinglePayout s pid).2) n st = st
      ∧ (processPendingPayouts st).2 = st
      ∧ (findPaymentById st pid = some pay → pay.payoutId.isSome = true →
          processSinglePayout st pid = (PayoutOutcome.alreadyPaidOut, st)) := by
  intro st pid n pay
  refine ⟨?_, rfl, ?_⟩
  · exact Function.iterate_fixed (processSinglePayout_state_fixed st pid) n
  · intro hf hp
    unfold processSinglePayout
    rw [hf]
    simp [hp]

/-- A captured payment whose payout_id is already set. -/
def payC10 : Payment :=
  { basePayment with payoutId := some ("pout_1"), status := .CAPTURED }

/-- Store for the C10 witness. -/
def stC10 : St := { emptySt with payments := [payC10] }

/-- Witness for C10: two consecutive runs on a paid-out payment change
nothing, and the run reports the idempotency-guard exit. -/
theorem payout_fields_set_at_most_once_witness :
    Nat.iterate (fun s => (processSinglePayout s 1).2) 2 stC10 = stC10
    ∧ (processPendingPayouts stC10).2 = stC10
    ∧ processSinglePayout stC10 1 = (PayoutOutcome.alreadyPaidOut, stC10) := by
  have h := payout_fields_set_at_most_once stC10 1 2 payC10
  exact ⟨h.1, h.2.1, h.2.2 (by decide) (by decide)⟩

end Ritual
